import Mathlib

set_option autoImplicit false
set_option linter.unusedVariables false

/-!
Shallow embedding of `src/ai.py`, a Groq-backed text-to-speech HTTP service.

The embedding covers:
- the static voice catalog (lists of voice names, default voices, model ids);
- the selector `_validate_and_select_model_voice`, which validates a language
  and an optional voice and resolves them to a (model, voice) pair or raises
  an HTTPException with status 400;
- the cleanup helper `_cleanup_file`, modelled over an abstract filesystem
  state (a finite set of paths) together with an environment predicate saying
  which paths the process is permitted to delete;
- the two-tier synthesizer `_synthesize_to_wav`, parametrised by an
  environment describing how the provider behaves (streaming tier outcome and
  buffered-tier response shape);
- the two request handlers `tts_get` and `tts_post`, modelled as functions
  producing the HTTP response together with a trace of resource events
  (validation, allocation, network call, synchronous release, scheduled
  release, response emission).

Python truthiness tests such as `lang or "en"` and `voice if voice else d`
are modelled by `pyOrStr`, which substitutes the default for both the absent
value (None) and the empty string. HTTPException detail strings are modelled
structurally by the `Detail` type: each constructor records the information
the corresponding Python f-string interpolates (in particular the voice list
embedded in the invalid-voice message and the cause text embedded in the
synthesis-failure message).
-/

/-- The list `ENGLISH_VOICES` from ai.py. -/
def ENGLISH_VOICES : List String :=
  ["Arista-PlayAI", "Atlas-PlayAI", "Basil-PlayAI", "Briggs-PlayAI",
   "Calum-PlayAI", "Celeste-PlayAI", "Cheyenne-PlayAI", "Chip-PlayAI",
   "Cillian-PlayAI", "Deedee-PlayAI", "Fritz-PlayAI", "Gail-PlayAI",
   "Indigo-PlayAI", "Mamaw-PlayAI", "Mason-PlayAI", "Mikail-PlayAI",
   "Mitch-PlayAI", "Quinn-PlayAI", "Thunder-PlayAI"]

/-- The list `ARABIC_VOICES` from ai.py. -/
def ARABIC_VOICES : List String :=
  ["Ahmad-PlayAI", "Amira-PlayAI", "Khalid-PlayAI", "Nasser-PlayAI"]

/-- The constant `DEFAULT_ENGLISH_VOICE` from ai.py. -/
def DEFAULT_ENGLISH_VOICE : String := "Arista-PlayAI"

/-- The constant `DEFAULT_ARABIC_VOICE` from ai.py. -/
def DEFAULT_ARABIC_VOICE : String := "Ahmad-PlayAI"

/-- The constant `ENGLISH_MODEL` from ai.py. -/
def ENGLISH_MODEL : String := "playai-tts"

/-- The constant `ARABIC_MODEL` from ai.py. -/
def ARABIC_MODEL : String := "playai-tts-arabic"

/-- Structural model of the HTTPException detail strings built in ai.py.
Each constructor records exactly the data the Python f-string interpolates:
`langMustBeEnOrAr` models the fixed string used at line 47;
`voiceNotFound label allowed` models the f-strings at lines 53 and 58, whose
text names the language (the `label`) and interpolates the full voice list
(the `allowed` field); `ttsFailed cause` models the f-string
at lines 139 and 159, which embeds the text of the underlying exception. -/
inductive Detail
  | langMustBeEnOrAr
  | voiceNotFound (label : String) (allowed : List String)
  | ttsFailed (cause : String)
deriving DecidableEq, Repr

/-- Model of fastapi.HTTPException: a status code and a detail message. -/
structure HttpError where
  status : Nat
  detail : Detail
deriving DecidableEq, Repr

/-- Python truthiness substitution: both `x or d` for strings and
`x if x else d` substitute `d` when `x` is None or the empty string. -/
def pyOrStr (x : Option String) (d : String) : String :=
  match x with
  | none => d
  | some s => if s = "" then d else s

/-- Model of the Python method str.lower, mapping the character-wise
lowercase over the string (kernel-reducible, unlike String.toLower, and
identical to it: both map Char.toLower over the characters). -/
def py_lower (s : String) : String := String.mk (s.data.map Char.toLower)

/-- Embedding of `_validate_and_select_model_voice` (ai.py lines 44-60).
The language is defaulted through `lang or "en"`, lowercased, and checked
against the pair (en, ar); Arabic and English branches then substitute the
default voice on a falsy voice value and check membership in the
corresponding voice list. -/
def _validate_and_select_model_voice (lang : Option String) (voice : Option String) :
    Except HttpError (String × String) :=
  let lang2 := py_lower (pyOrStr lang "en")
  if lang2 = "en" ∨ lang2 = "ar" then
    if lang2 = "ar" then
      let selected_voice := pyOrStr voice DEFAULT_ARABIC_VOICE
      if selected_voice ∈ ARABIC_VOICES then
        .ok (ARABIC_MODEL, selected_voice)
      else
        .error ⟨400, .voiceNotFound "Arabic" ARABIC_VOICES⟩
    else
      let selected_voice := pyOrStr voice DEFAULT_ENGLISH_VOICE
      if selected_voice ∈ ENGLISH_VOICES then
        .ok (ENGLISH_MODEL, selected_voice)
      else
        .error ⟨400, .voiceNotFound "English" ENGLISH_VOICES⟩
  else
    .error ⟨400, .langMustBeEnOrAr⟩

/-- The two supported languages, used to quantify spec statements of the
form "for every supported language L". -/
inductive SupportedLang
  | en
  | ar
deriving DecidableEq, Repr

/-- The language code string of a supported language. -/
def langCode : SupportedLang → String
  | .en => "en"
  | .ar => "ar"

/-- The catalog model identifier of a supported language. -/
def modelOf : SupportedLang → String
  | .en => ENGLISH_MODEL
  | .ar => ARABIC_MODEL

/-- The catalog default voice of a supported language. -/
def defaultOf : SupportedLang → String
  | .en => DEFAULT_ENGLISH_VOICE
  | .ar => DEFAULT_ARABIC_VOICE

/-- The catalog voice set of a supported language. -/
def voicesOf : SupportedLang → List String
  | .en => ENGLISH_VOICES
  | .ar => ARABIC_VOICES

/-- The language label interpolated into the invalid-voice message of a
supported language. -/
def langLabel : SupportedLang → String
  | .en => "English"
  | .ar => "Arabic"

/-- Outcome of the streaming tier of `_synthesize_to_wav` (ai.py lines
75-91): either `stream_to_file` writes the payload and the function returns,
or an AttributeError is raised (the streaming helper or its stream_to_file
capability is missing on this SDK version), or some other exception is
raised. -/
inductive StreamTierOutcome
  | ok (payload : List Nat)
  | attrError
  | otherError (msg : String)
deriving DecidableEq, Repr

/-- Model of the nested `resp.raw` object probed at ai.py line 106: it may
or may not expose a `read` method; when it does, calling it yields bytes. -/
structure RawObj where
  read : Option (List Nat)
deriving DecidableEq, Repr

/-- Model of the non-streaming provider response probed at ai.py lines
102-109. Each field is `some` exactly when `hasattr` finds the attribute;
the bytes carried are what reading that attribute would yield. -/
structure BufferedResp where
  read : Option (List Nat)
  content : Option (List Nat)
  raw : Option RawObj
deriving DecidableEq, Repr

/-- Outcome of the non-streaming `client.audio.speech.create` call at ai.py
line 95: either a response object, or a raised exception. -/
inductive BufferedCallOutcome
  | ok (resp : BufferedResp)
  | err (msg : String)
deriving DecidableEq, Repr

/-- Provider environment a single synthesis call runs against: what the
streaming tier does and what the buffered call would return. -/
structure SynthEnv where
  streamTier : StreamTierOutcome
  bufferedTier : BufferedCallOutcome
deriving DecidableEq, Repr

/-- The message of the RuntimeError raised at ai.py line 109 when no known
payload shape is present on the buffered response. -/
def noShapeMsg : String :=
  "Unexpected binary response object from Groq SDK (no stream/read/content available)."

/-- Embedding of the payload extraction at ai.py lines 102-109: probe
`resp.read`, then `resp.content`, then `resp.raw.read`, in that order, and
raise a RuntimeError when none is available. -/
def extractPayload (resp : BufferedResp) : Except String (List Nat) :=
  match resp.read with
  | some d => .ok d
  | none =>
    match resp.content with
    | some d => .ok d
    | none =>
      match resp.raw with
      | some r =>
        match r.read with
        | some d => .ok d
        | none => .error noShapeMsg
      | none => .error noShapeMsg

instance {ε α : Type} [DecidableEq ε] [DecidableEq α] : DecidableEq (Except ε α) := fun
  | .ok a, .ok b =>
    if h : a = b then isTrue (by rw [h]) else isFalse (by intro hh; cases hh; exact h rfl)
  | .ok _, .error _ => isFalse (by intro h; cases h)
  | .error _, .ok _ => isFalse (by intro h; cases h)
  | .error a, .error b =>
    if h : a = b then isTrue (by rw [h]) else isFalse (by intro hh; cases hh; exact h rfl)

/-- Result of one run of `_synthesize_to_wav`: whether it returned normally
or raised (with the exception text), what bytes ended up written to
`out_path` (`none` when nothing was written), and whether the buffered
fallback tier was entered. -/
structure SynthResult where
  result : Except String Unit
  written : Option (List Nat)
  usedFallback : Bool
deriving DecidableEq, Repr

/-- Embedding of `_synthesize_to_wav` (ai.py lines 70-115). The streaming
tier runs first: on success the payload is streamed to the file and the
function returns; an AttributeError is swallowed and control falls through
to the buffered tier; any other exception is re-raised. The buffered tier
issues the non-streaming call, extracts the payload by shape probing, and
writes it to the file; any exception there is re-raised. -/
def _synthesize_to_wav (env : SynthEnv) : SynthResult :=
  match env.streamTier with
  | .ok payload => { result := .ok (), written := some payload, usedFallback := false }
  | .otherError msg => { result := .error msg, written := none, usedFallback := false }
  | .attrError =>
    match env.bufferedTier with
    | .err msg => { result := .error msg, written := none, usedFallback := true }
    | .ok resp =>
      match extractPayload resp with
      | .ok data => { result := .ok (), written := some data, usedFallback := true }
      | .error msg => { result := .error msg, written := none, usedFallback := true }

/-- Resource and response events emitted by a handler run, in program
order: selector validation succeeded, temporary file allocated, provider
call issued, temporary file synchronously released (ai.py line 138 / 158),
release scheduled as a background task to run after the response is sent
(ai.py line 142 / 161), success response returned, error response raised. -/
inductive Event
  | validated
  | allocated (p : String)
  | networkCall
  | releasedSync (p : String)
  | scheduledRelease (p : String)
  | respondedOk (p : String)
  | respondedError (status : Nat)
deriving DecidableEq, Repr

/-- Result of a handler run: the HTTP response (a file response carrying
path, media type and suggested filename, or an HTTPException) and the trace
of resource events in the order the handler performed them. -/
structure HandlerOutcome where
  response : Except HttpError (String × String × String)
  trace : List Event
deriving DecidableEq, Repr

/-- Embedding of the GET handler `tts_get` (ai.py lines 127-144). The
selector runs before any allocation; a fresh temporary path `tmp` is then
allocated; `_synthesize_to_wav` is attempted; on failure the file is
released synchronously and an HTTPException 500 embedding the cause text is
raised; on success a background release task is scheduled only when the
`background_tasks` argument is not None (its declared default is None and
the scheduling is guarded by `if background_tasks:`), and the file response
is returned. -/
def tts_get (text : String) (voice : Option String) (lang : Option String)
    (background_tasks : Option Unit) (tmp : String) (env : SynthEnv) : HandlerOutcome :=
  match _validate_and_select_model_voice lang voice with
  | .error e => { response := .error e, trace := [.respondedError e.status] }
  | .ok _ =>
    match (_synthesize_to_wav env).result with
    | .error msg =>
      { response := .error ⟨500, .ttsFailed msg⟩,
        trace := [.validated, .allocated tmp, .networkCall,
                  .releasedSync tmp, .respondedError 500] }
    | .ok _ =>
      match background_tasks with
      | some _ =>
        { response := .ok (tmp, "audio/wav", "speech.wav"),
          trace := [.validated, .allocated tmp, .networkCall,
                    .scheduledRelease tmp, .respondedOk tmp] }
      | none =>
        { response := .ok (tmp, "audio/wav", "speech.wav"),
          trace := [.validated, .allocated tmp, .networkCall, .respondedOk tmp] }

/-- Model of the pydantic request body `TTSRequest` (ai.py lines 38-41). -/
structure TTSRequest where
  text : String
  voice : Option String := none
  lang : Option String := some "en"
deriving DecidableEq, Repr

/-- Embedding of the POST handler `tts_post` (ai.py lines 147-162). It is
identical to `tts_get` except that the request fields come from the JSON
body and `background_tasks` is a required parameter the framework always
supplies, so the background release task is scheduled unconditionally on
the success path. -/
def tts_post (req : TTSRequest) (tmp : String) (env : SynthEnv) : HandlerOutcome :=
  match _validate_and_select_model_voice req.lang req.voice with
  | .error e => { response := .error e, trace := [.respondedError e.status] }
  | .ok _ =>
    match (_synthesize_to_wav env).result with
    | .error msg =>
      { response := .error ⟨500, .ttsFailed msg⟩,
        trace := [.validated, .allocated tmp, .networkCall,
                  .releasedSync tmp, .respondedError 500] }
    | .ok _ =>
      { response := .ok (tmp, "audio/wav", "speech.wav"),
        trace := [.validated, .allocated tmp, .networkCall,
                  .scheduledRelease tmp, .respondedOk tmp] }

/-- True on the release events (synchronous or scheduled) for path `p`. -/
def isReleaseEvt (p : String) : Event → Bool
  | .releasedSync q => q == p
  | .scheduledRelease q => q == p
  | _ => false

/-- The release events for path `p` occurring in a trace. -/
def releaseEvts (p : String) (l : List Event) : List Event :=
  l.filter (isReleaseEvt p)

/-- The trace releases path `p` exactly once: either one synchronous
release or one scheduled release, and no other release event for `p`. -/
def releasedExactlyOnce (p : String) (l : List Event) : Prop :=
  releaseEvts p l = [Event.releasedSync p] ∨ releaseEvts p l = [Event.scheduledRelease p]

/-- Event `a` occurs strictly before event `b` in the trace `l`. -/
def precedes (a b : Event) (l : List Event) : Prop :=
  ∃ i j : Nat, i < j ∧ l[i]? = some a ∧ l[j]? = some b

/-- Model of `os.remove` over an abstract filesystem state (the finite set
of existing paths) and a permission environment `perm` saying which paths
the process may delete: removing an absent path raises FileNotFoundError,
removing a path without permission raises PermissionError and leaves the
filesystem unchanged, and otherwise the path is deleted. -/
def os_remove (perm : String → Bool) (fs : Finset String) (p : String) :
    Except String (Finset String) :=
  if p ∈ fs then
    if perm p then .ok (fs.erase p) else .error "PermissionError"
  else .error "FileNotFoundError"

/-- Embedding of `_cleanup_file` (ai.py lines 63-67): call `os.remove` and
silently absorb every exception. The function is total: it returns a
filesystem state for every input and never raises. -/
def _cleanup_file (perm : String → Bool) (fs : Finset String) (p : String) :
    Finset String :=
  match os_remove perm fs p with
  | .ok fs2 => fs2
  | .error _ => fs

/-- Catalog sanity, shared by the selector claims: every voice in every
supported language is a nonempty string, and the default voice of every
supported language is a member of its voice set. -/
theorem catalog_voices_nonempty :
    ∀ L : SupportedLang, (∀ v ∈ voicesOf L, v ≠ "") ∧ defaultOf L ∈ voicesOf L := by
  intro L
  cases L <;> constructor <;> decide

/-- C5: for every supported language L (en or ar), resolving with no voice
supplied returns the pair (model(L), default(L)) without error; in
particular resolve("en", None) returns ("playai-tts", "Arista-PlayAI"). -/
theorem resolve_default_voice :
    (∀ L : SupportedLang,
      _validate_and_select_model_voice (some (langCode L)) none =
        .ok (modelOf L, defaultOf L))
    ∧ _validate_and_select_model_voice (some "en") none =
        .ok ("playai-tts", "Arista-PlayAI") := by
  constructor
  · intro L
    cases L <;> decide
  · decide

/-- Helper equation: the selector at language "en" and an explicitly
supplied voice reduces to default substitution on the empty string followed
by membership in ENGLISH_VOICES. -/
theorem resolve_en_eq (V : String) :
    _validate_and_select_model_voice (some "en") (some V) =
      (if (if V = "" then DEFAULT_ENGLISH_VOICE else V) ∈ ENGLISH_VOICES
       then .ok (ENGLISH_MODEL, (if V = "" then DEFAULT_ENGLISH_VOICE else V))
       else .error ⟨400, .voiceNotFound "English" ENGLISH_VOICES⟩) := rfl

/-- Helper equation: the selector at language "ar" and an explicitly
supplied voice reduces to default substitution on the empty string followed
by membership in ARABIC_VOICES. -/
theorem resolve_ar_eq (V : String) :
    _validate_and_select_model_voice (some "ar") (some V) =
      (if (if V = "" then DEFAULT_ARABIC_VOICE else V) ∈ ARABIC_VOICES
       then .ok (ARABIC_MODEL, (if V = "" then DEFAULT_ARABIC_VOICE else V))
       else .error ⟨400, .voiceNotFound "Arabic" ARABIC_VOICES⟩) := rfl

/-- C6: for every supported language L and every voice V that is a member
of the voice set of L, resolve(L, V) returns (model(L), V) without error;
in particular resolve("ar", "Khalid-PlayAI") returns
("playai-tts-arabic", "Khalid-PlayAI"). -/
theorem resolve_member_voice :
    (∀ L : SupportedLang, ∀ V ∈ voicesOf L,
      _validate_and_select_model_voice (some (langCode L)) (some V) =
        .ok (modelOf L, V))
    ∧ _validate_and_select_model_voice (some "ar") (some "Khalid-PlayAI") =
        .ok ("playai-tts-arabic", "Khalid-PlayAI") := by
  constructor
  · intro L
    cases L <;> decide
  · decide

/-- Witness for C6 at the concrete scenario from the spec: the voice
Khalid-PlayAI is a member of the Arabic voice set and resolves under
Arabic to the Arabic model with that voice. -/
theorem resolve_member_voice_witness :
    _validate_and_select_model_voice (some (langCode SupportedLang.ar))
        (some "Khalid-PlayAI") =
      .ok (modelOf SupportedLang.ar, "Khalid-PlayAI") :=
  resolve_member_voice.1 SupportedLang.ar "Khalid-PlayAI" (by decide)

/-- C7: every language string outside en and ar under case-insensitive
comparison is rejected with the invalid-language error carrying status 400;
an absent or empty language behaves exactly like "en" and in particular
succeeds with no voice supplied; mixed-case spellings of "en" and "ar" are
accepted. -/
theorem resolve_invalid_language :
    (∀ (s : String) (v : Option String), s ≠ "" →
      py_lower s ≠ "en" → py_lower s ≠ "ar" →
      _validate_and_select_model_voice (some s) v = .error ⟨400, .langMustBeEnOrAr⟩)
    ∧ (∀ v, _validate_and_select_model_voice none v =
        _validate_and_select_model_voice (some "en") v)
    ∧ (∀ v, _validate_and_select_model_voice (some "") v =
        _validate_and_select_model_voice (some "en") v)
    ∧ _validate_and_select_model_voice none none = .ok ("playai-tts", "Arista-PlayAI")
    ∧ _validate_and_select_model_voice (some "En") none =
        .ok ("playai-tts", "Arista-PlayAI")
    ∧ _validate_and_select_model_voice (some "AR") none =
        .ok ("playai-tts-arabic", "Ahmad-PlayAI") := by
  refine ⟨?_, ?_, ?_, ?_, ?_, ?_⟩
  · intro s v hne h1 h2
    simp [_validate_and_select_model_voice, pyOrStr, hne, h1, h2]
  · intro v; rfl
  · intro v; rfl
  · decide
  · decide
  · decide

/-- Witness for C7 at the concrete scenario from the spec: the language
"fr" is rejected with the invalid-language error. -/
theorem resolve_invalid_language_witness :
    _validate_and_select_model_voice (some "fr") none =
      .error ⟨400, .langMustBeEnOrAr⟩ :=
  resolve_invalid_language.1 "fr" none (by decide) (by decide) (by decide)

/-- C8: for every supported language L and every explicitly supplied
nonempty voice V outside the voice set of L (an empty voice is falsy in
Python and is replaced by the default instead, see the empty-voice claim),
resolve(L, V) fails with the invalid-voice error whose message interpolates
exactly the voice list of L; in particular the Arabic voice Khalid-PlayAI
under English fails that way. -/
theorem resolve_invalid_voice :
    (∀ (L : SupportedLang) (V : String), V ≠ "" → V ∉ voicesOf L →
      _validate_and_select_model_voice (some (langCode L)) (some V) =
        .error ⟨400, .voiceNotFound (langLabel L) (voicesOf L)⟩)
    ∧ _validate_and_select_model_voice (some "en") (some "Khalid-PlayAI") =
        .error ⟨400, .voiceNotFound "English" ENGLISH_VOICES⟩ := by
  constructor
  · intro L V hne hnm
    cases L
    case en =>
      simp only [voicesOf] at hnm
      simp only [langCode, langLabel, voicesOf]
      rw [resolve_en_eq]
      simp [hne, hnm]
    case ar =>
      simp only [voicesOf] at hnm
      simp only [langCode, langLabel, voicesOf]
      rw [resolve_ar_eq]
      simp [hne, hnm]
  · decide

/-- Witness for C8 at the concrete scenario from the spec: the Arabic
voice Khalid-PlayAI supplied under English is rejected with the
invalid-voice error carrying the English voice list. -/
theorem resolve_invalid_voice_witness :
    _validate_and_select_model_voice (some (langCode SupportedLang.en))
        (some "Khalid-PlayAI") =
      .error ⟨400, .voiceNotFound (langLabel SupportedLang.en)
        (voicesOf SupportedLang.en)⟩ :=
  resolve_invalid_voice.1 SupportedLang.en "Khalid-PlayAI" (by decide) (by decide)

/-- C10: for every supported language L, supplying the empty string as the
voice is treated exactly like supplying no voice: resolve(L, "") returns
(model(L), default(L)), identical to resolve(L, None), because the
default-substitution test `voice if voice else default` is on Python
falsiness of the value, not on its absence. -/
theorem resolve_empty_voice_defaults :
    ∀ L : SupportedLang,
      _validate_and_select_model_voice (some (langCode L)) (some "") =
          .ok (modelOf L, defaultOf L)
        ∧ _validate_and_select_model_voice (some (langCode L)) (some "") =
            _validate_and_select_model_voice (some (langCode L)) none := by
  intro L
  cases L <;> exact ⟨by decide, by decide⟩

/-- Helper: the release events of the failure-branch handler trace are
exactly the one synchronous release. -/
theorem releaseEvts_failure_trace (tmp : String) :
    releaseEvts tmp [Event.validated, Event.allocated tmp, Event.networkCall,
      Event.releasedSync tmp, Event.respondedError 500] = [Event.releasedSync tmp] := by
  simp [releaseEvts, isReleaseEvt, List.filter]

/-- Helper: the release events of the success-branch handler trace with a
background-task object are exactly the one scheduled release. -/
theorem releaseEvts_success_trace (tmp : String) :
    releaseEvts tmp [Event.validated, Event.allocated tmp, Event.networkCall,
      Event.scheduledRelease tmp, Event.respondedOk tmp] = [Event.scheduledRelease tmp] := by
  simp [releaseEvts, isReleaseEvt, List.filter]

/-- Helper: the success-branch trace of tts_get without a background-task
object contains no release event at all. -/
theorem releaseEvts_nobg_trace (tmp : String) :
    releaseEvts tmp [Event.validated, Event.allocated tmp, Event.networkCall,
      Event.respondedOk tmp] = [] := by
  simp [releaseEvts, isReleaseEvt, List.filter]

/-- C2: in `_synthesize_to_wav`, the buffered fallback tier is entered
exactly when the streaming tier raises AttributeError (the streaming helper
or its stream_to_file capability being missing); any other exception of the
streaming tier is re-raised unchanged with the fallback never attempted. -/
theorem synth_fallback_only_on_capability_absence :
    ∀ env : SynthEnv,
      ((_synthesize_to_wav env).usedFallback = true ↔
        env.streamTier = StreamTierOutcome.attrError)
      ∧ (∀ msg, env.streamTier = StreamTierOutcome.otherError msg →
          (_synthesize_to_wav env).result = .error msg
            ∧ (_synthesize_to_wav env).usedFallback = false) := by
  intro env
  constructor
  · cases hs : env.streamTier with
    | ok p => simp [_synthesize_to_wav, hs]
    | otherError m => simp [_synthesize_to_wav, hs]
    | attrError =>
      cases hb : env.bufferedTier with
      | err m => simp [_synthesize_to_wav, hs, hb]
      | ok resp =>
        cases hx : extractPayload resp <;> simp [_synthesize_to_wav, hs, hb, hx]
  · intro msg hmsg
    simp [_synthesize_to_wav, hmsg]

/-- Environment in which the streaming tier raises a non-AttributeError
exception with text "boom". -/
def envOther : SynthEnv :=
  { streamTier := .otherError "boom", bufferedTier := .ok ⟨none, none, none⟩ }

/-- Witness for C2: with the provider raising "boom" on the streaming
tier, the synthesizer re-raises "boom" and never enters the fallback. -/
theorem synth_fallback_only_on_capability_absence_witness :
    (_synthesize_to_wav envOther).result = .error "boom"
      ∧ (_synthesize_to_wav envOther).usedFallback = false :=
  (synth_fallback_only_on_capability_absence envOther).2 "boom" rfl

/-- C3: the buffered tier extracts the payload by probing the response
shapes in the fixed order read, content, raw.read, and when none of the
shapes is present the synthesizer fails with the RuntimeError message and
nothing is written to the destination. -/
theorem buffered_payload_probe_order :
    ∀ resp : BufferedResp,
      (∀ d, resp.read = some d → extractPayload resp = .ok d)
      ∧ (resp.read = none → ∀ d, resp.content = some d → extractPayload resp = .ok d)
      ∧ (resp.read = none → resp.content = none →
          ∀ r d, resp.raw = some r → r.read = some d → extractPayload resp = .ok d)
      ∧ (resp.read = none → resp.content = none →
          (∀ r, resp.raw = some r → r.read = none) →
          extractPayload resp = .error noShapeMsg)
      ∧ (∀ env : SynthEnv, env.streamTier = StreamTierOutcome.attrError →
          env.bufferedTier = BufferedCallOutcome.ok resp →
          extractPayload resp = .error noShapeMsg →
          (_synthesize_to_wav env).result = .error noShapeMsg
            ∧ (_synthesize_to_wav env).written = none) := by
  intro resp
  refine ⟨?_, ?_, ?_, ?_, ?_⟩
  · intro d hd; simp [extractPayload, hd]
  · intro h0 d hd; simp [extractPayload, h0, hd]
  · intro h0 h1 r d hr hd; simp [extractPayload, h0, h1, hr, hd]
  · intro h0 h1 hraw
    cases hr : resp.raw with
    | none => simp [extractPayload, h0, h1, hr]
    | some r => simp [extractPayload, h0, h1, hr, hraw r hr]
  · intro env hs hb hx
    simp [_synthesize_to_wav, hs, hb, hx]

/-- Response exposing the read shape (and also a content shape, which must
lose to read in the priority order). -/
def respReadShape : BufferedResp := ⟨some [1, 2, 3], some [9], none⟩

/-- Response exposing none of the conventional payload shapes. -/
def respNoShape : BufferedResp := ⟨none, none, none⟩

/-- Environment whose streaming tier raises AttributeError and whose
buffered call returns the shapeless response. -/
def envNoShape : SynthEnv := ⟨.attrError, .ok respNoShape⟩

/-- Witness for C3: the read shape wins over the content shape, and the
shapeless response makes the synthesizer fail with nothing written. -/
theorem buffered_payload_probe_order_witness :
    extractPayload respReadShape = .ok [1, 2, 3]
      ∧ extractPayload respNoShape = .error noShapeMsg
      ∧ (_synthesize_to_wav envNoShape).result = .error noShapeMsg
      ∧ (_synthesize_to_wav envNoShape).written = none := by
  have H := buffered_payload_probe_order respNoShape
  refine ⟨(buffered_payload_probe_order respReadShape).1 [1, 2, 3] rfl, ?_, ?_, ?_⟩
  · exact H.2.2.2.1 rfl rfl (fun r h => Option.noConfusion h)
  · exact (H.2.2.2.2 envNoShape rfl rfl
      (H.2.2.2.1 rfl rfl (fun r h => Option.noConfusion h))).1
  · exact (H.2.2.2.2 envNoShape rfl rfl
      (H.2.2.2.1 rfl rfl (fun r h => Option.noConfusion h))).2

/-- Environment in which the streaming tier succeeds and writes a payload. -/
def envStreamOk : SynthEnv :=
  { streamTier := .ok [82, 73, 70, 70], bufferedTier := .err "unused" }

/-- C1: for every request handled by a /tts handler (GET or POST), release
of the allocated temporary file is invoked exactly once per allocated
path — synchronously on the failure branch before the error is surfaced,
or scheduled (deferred until after the response is transmitted) on the
success branch — and no code path returns successfully while skipping the
scheduling of release. A handled request always carries a background-tasks
object: the framework resolves the BackgroundTasks parameter purely from
its annotation (the declared None default is never consulted) and injects
a fresh, truthy instance on every request, so the handled GET request is
modelled with the background_tasks argument present. -/
theorem release_scheduled_exactly_once :
    (∀ (req : TTSRequest) (tmp : String) (env : SynthEnv),
      (Event.allocated tmp ∈ (tts_post req tmp env).trace →
        releasedExactlyOnce tmp (tts_post req tmp env).trace)
      ∧ (∀ e : HttpError, (tts_post req tmp env).response = .error e →
          Event.allocated tmp ∈ (tts_post req tmp env).trace →
          releaseEvts tmp (tts_post req tmp env).trace = [Event.releasedSync tmp])
      ∧ (∀ r : String × String × String, (tts_post req tmp env).response = .ok r →
          releaseEvts tmp (tts_post req tmp env).trace = [Event.scheduledRelease tmp]))
    ∧ (∀ (text : String) (voice lang : Option String) (tmp : String) (env : SynthEnv),
      (Event.allocated tmp ∈ (tts_get text voice lang (some ()) tmp env).trace →
        releasedExactlyOnce tmp (tts_get text voice lang (some ()) tmp env).trace)
      ∧ (∀ e : HttpError,
          (tts_get text voice lang (some ()) tmp env).response = .error e →
          Event.allocated tmp ∈ (tts_get text voice lang (some ()) tmp env).trace →
          releaseEvts tmp (tts_get text voice lang (some ()) tmp env).trace =
            [Event.releasedSync tmp])
      ∧ (∀ r : String × String × String,
          (tts_get text voice lang (some ()) tmp env).response = .ok r →
          releaseEvts tmp (tts_get text voice lang (some ()) tmp env).trace =
            [Event.scheduledRelease tmp])) := by
  constructor
  · intro req tmp env
    refine ⟨?_, ?_, ?_⟩
    · intro h
      cases hv : _validate_and_select_model_voice req.lang req.voice with
      | error e => simp [tts_post, hv] at h
      | ok mv =>
        cases hr : (_synthesize_to_wav env).result with
        | error m =>
          exact Or.inl (by simp [tts_post, hv, hr, releasedExactlyOnce,
            releaseEvts_failure_trace])
        | ok u =>
          exact Or.inr (by simp [tts_post, hv, hr, releasedExactlyOnce,
            releaseEvts_success_trace])
    · intro e hresp h
      cases hv : _validate_and_select_model_voice req.lang req.voice with
      | error e2 => simp [tts_post, hv] at h
      | ok mv =>
        cases hr : (_synthesize_to_wav env).result with
        | error m => simp [tts_post, hv, hr, releaseEvts_failure_trace]
        | ok u => simp [tts_post, hv, hr] at hresp
    · intro r hresp
      cases hv : _validate_and_select_model_voice req.lang req.voice with
      | error e => simp [tts_post, hv] at hresp
      | ok mv =>
        cases hr : (_synthesize_to_wav env).result with
        | error m => simp [tts_post, hv, hr] at hresp
        | ok u => simp [tts_post, hv, hr, releaseEvts_success_trace]
  · intro text voice lang tmp env
    refine ⟨?_, ?_, ?_⟩
    · intro h
      cases hv : _validate_and_select_model_voice lang voice with
      | error e => simp [tts_get, hv] at h
      | ok mv =>
        cases hr : (_synthesize_to_wav env).result with
        | error m =>
          exact Or.inl (by simp [tts_get, hv, hr, releasedExactlyOnce,
            releaseEvts_failure_trace])
        | ok u =>
          exact Or.inr (by simp [tts_get, hv, hr, releasedExactlyOnce,
            releaseEvts_success_trace])
    · intro e hresp h
      cases hv : _validate_and_select_model_voice lang voice with
      | error e2 => simp [tts_get, hv] at h
      | ok mv =>
        cases hr : (_synthesize_to_wav env).result with
        | error m => simp [tts_get, hv, hr, releaseEvts_failure_trace]
        | ok u => simp [tts_get, hv, hr] at hresp
    · intro r hresp
      cases hv : _validate_and_select_model_voice lang voice with
      | error e => simp [tts_get, hv] at hresp
      | ok mv =>
        cases hr : (_synthesize_to_wav env).result with
        | error m => simp [tts_get, hv, hr] at hresp
        | ok u => simp [tts_get, hv, hr, releaseEvts_success_trace]

/-- Witness for C1: a successful POST request schedules exactly one
release, and a GET request whose provider call raises "boom", handled with
the framework-supplied background-tasks object, performs exactly the one
synchronous release. -/
theorem release_scheduled_exactly_once_witness :
    releaseEvts "t2.wav"
        (tts_post ⟨"hi", none, some "en"⟩ "t2.wav" envStreamOk).trace =
      [Event.scheduledRelease "t2.wav"]
      ∧ releaseEvts "t2.wav"
          (tts_get "hi" none (some "en") (some ()) "t2.wav" envOther).trace =
        [Event.releasedSync "t2.wav"] := by
  constructor
  · exact (release_scheduled_exactly_once.1 ⟨"hi", none, some "en"⟩ "t2.wav"
      envStreamOk).2.2 ("t2.wav", "audio/wav", "speech.wav") (by decide)
  · exact (release_scheduled_exactly_once.2 "hi" none (some "en") "t2.wav"
      envOther).2.1 ⟨500, .ttsFailed "boom"⟩ (by decide) (by decide)

/-- C4: for every request, if synthesis fails after successful validation
then the handler raises HTTP 500 with the cause text embedded, and the
synchronous release of the allocated temporary file strictly precedes the
error response in the trace; and if validation fails, the validation error
is surfaced with no temporary file allocated and no network call made. -/
theorem error_time_resource_state :
    (∀ (text : String) (voice lang : Option String) (bg : Option Unit)
        (tmp : String) (env : SynthEnv) (msg : String) (mv : String × String),
      _validate_and_select_model_voice lang voice = .ok mv →
      (_synthesize_to_wav env).result = .error msg →
        (tts_get text voice lang bg tmp env).response = .error ⟨500, .ttsFailed msg⟩
        ∧ precedes (.releasedSync tmp) (.respondedError 500)
            (tts_get text voice lang bg tmp env).trace)
    ∧ (∀ (req : TTSRequest) (tmp : String) (env : SynthEnv) (msg : String)
        (mv : String × String),
      _validate_and_select_model_voice req.lang req.voice = .ok mv →
      (_synthesize_to_wav env).result = .error msg →
        (tts_post req tmp env).response = .error ⟨500, .ttsFailed msg⟩
        ∧ precedes (.releasedSync tmp) (.respondedError 500)
            (tts_post req tmp env).trace)
    ∧ (∀ (text : String) (voice lang : Option String) (bg : Option Unit)
        (tmp : String) (env : SynthEnv) (e : HttpError),
      _validate_and_select_model_voice lang voice = .error e →
        (tts_get text voice lang bg tmp env).response = .error e
        ∧ (∀ p, Event.allocated p ∉ (tts_get text voice lang bg tmp env).trace)
        ∧ Event.networkCall ∉ (tts_get text voice lang bg tmp env).trace)
    ∧ (∀ (req : TTSRequest) (tmp : String) (env : SynthEnv) (e : HttpError),
      _validate_and_select_model_voice req.lang req.voice = .error e →
        (tts_post req tmp env).response = .error e
        ∧ (∀ p, Event.allocated p ∉ (tts_post req tmp env).trace)
        ∧ Event.networkCall ∉ (tts_post req tmp env).trace) := by
  refine ⟨?_, ?_, ?_, ?_⟩
  · intro text voice lang bg tmp env msg mv hv hr
    refine ⟨by simp [tts_get, hv, hr], ?_⟩
    simp only [tts_get, hv, hr]
    exact ⟨3, 4, by omega, rfl, rfl⟩
  · intro req tmp env msg mv hv hr
    refine ⟨by simp [tts_post, hv, hr], ?_⟩
    simp only [tts_post, hv, hr]
    exact ⟨3, 4, by omega, rfl, rfl⟩
  · intro text voice lang bg tmp env e hv
    refine ⟨by simp [tts_get, hv], ?_, ?_⟩ <;> simp [tts_get, hv]
  · intro req tmp env e hv
    refine ⟨by simp [tts_post, hv], ?_, ?_⟩ <;> simp [tts_post, hv]

/-- Witness for C4: with the provider raising "boom", the GET handler
raises HTTP 500 embedding "boom" and releases the file before responding;
with language "fr", the GET handler surfaces the validation error with no
allocation. -/
theorem error_time_resource_state_witness :
    (tts_get "hi" none (some "en") none "t.wav" envOther).response =
        .error ⟨500, .ttsFailed "boom"⟩
      ∧ precedes (.releasedSync "t.wav") (.respondedError 500)
          (tts_get "hi" none (some "en") none "t.wav" envOther).trace
      ∧ (tts_get "hi" none (some "fr") none "t.wav" envOther).response =
          .error ⟨400, .langMustBeEnOrAr⟩ := by
  have H1 := error_time_resource_state.1 "hi" none (some "en") none "t.wav" envOther
    "boom" ("playai-tts", "Arista-PlayAI") (by decide) rfl
  have H2 := error_time_resource_state.2.2.1 "hi" none (some "fr") none "t.wav" envOther
    ⟨400, .langMustBeEnOrAr⟩ (by decide)
  exact ⟨H1.1, H1.2, H2.1⟩

/-- C9: `_cleanup_file` is idempotent and total over every permission
environment and filesystem state: calling it twice on the same path leaves
the state of calling it once, and every failure of the underlying
`os.remove` (file absent, permission denied) is silently absorbed, leaving
the filesystem unchanged instead of raising — by its type the function
returns a state on every input. -/
theorem cleanup_idempotent_never_raises :
    ∀ (perm : String → Bool) (fs : Finset String) (p : String),
      _cleanup_file perm (_cleanup_file perm fs p) p = _cleanup_file perm fs p
      ∧ (∀ e, os_remove perm fs p = .error e → _cleanup_file perm fs p = fs) := by
  intro perm fs p
  constructor
  · by_cases h1 : p ∈ fs
    · by_cases h2 : perm p
      · simp [_cleanup_file, os_remove, h1, h2, Finset.not_mem_erase]
      · simp [_cleanup_file, os_remove, h1, h2]
    · simp [_cleanup_file, os_remove, h1]
  · intro e he
    simp [_cleanup_file, he]

/-- Permission environment allowing every deletion. -/
def permAll : String → Bool := fun _ => true

/-- Witness for C9: removing a path from the empty filesystem fails inside
`os.remove` with FileNotFoundError, and `_cleanup_file` absorbs the failure
and returns the unchanged (empty) state. -/
theorem cleanup_idempotent_never_raises_witness :
    _cleanup_file permAll (∅ : Finset String) "t.wav" = (∅ : Finset String) :=
  (cleanup_idempotent_never_raises permAll ∅ "t.wav").2 "FileNotFoundError" (by decide)
